import Mathlib

/-
Verification of the MS-QDR class-quality scoring pipeline (run_ms_qdr.py).

Modelling conventions:
* Python floats are modelled as exact numbers: input metric values and the
  population statistics as rationals, the normalized risk values as reals
  (the logistic normalizer uses the real exponential).  Decimal literals of
  the source (0.20, 0.75, 1.4826, 1e-9, ...) are taken at their exact
  decimal value.
* Python's builtin round (round half to even) is modelled by pyRound.
* Python dictionaries coming from the raw JSON are modelled as association
  lists of string keys and RawVal values; Python string comparison is
  modelled code-point-lexicographically (pyStrLt).
* Python's list.sort is a stable sort; it is modelled by List.insertionSort
  with the reflexive comparison that places an earlier element before a
  later one exactly when the later one's key is not strictly smaller.
-/

namespace MSQDR

/-! ## Raw input model (the JSON records consumed by main) -/

/-- A JSON-ish value as seen by the script: a number, a string, a nested
mapping, or anything else (collapsed to null). -/
inductive RawVal : Type where
  | num (q : ℚ)
  | str (s : String)
  | dict (entries : List (String × RawVal))
  | null

/-- A raw record: a Python dict with string keys. -/
abbrev RawObj : Type := List (String × RawVal)

/-- Key lookup in a raw record (`k in d` / `d[k]` in Python). -/
def lookup (d : RawObj) (k : String) : Option RawVal :=
  (d.find? (fun e => e.1 == k)).map (·.2)

/-- The source's `_get(d, *keys, default=...)` (lines 15-19): try the keys in
order, return the first present value, else the default. -/
def pyGet (d : RawObj) : List String → RawVal → RawVal
  | [], dflt => dflt
  | k :: ks, dflt =>
    match lookup d k with
    | some v => v
    | none => pyGet d ks dflt

/-- Whether a raw value is a mapping (`isinstance(m, dict)`). -/
def RawVal.isDict : RawVal → Bool
  | .dict _ => true
  | _ => false

/-- The source's `get_metrics_dict` (lines 21-23): the value under
"metrics"/"Metrics" if it is a mapping, else the empty mapping. -/
def get_metrics_dict (c : RawObj) : RawObj :=
  match pyGet c ["metrics", "Metrics"] (RawVal.dict []) with
  | RawVal.dict m => m
  | _ => []

/-- String content of a raw value (the string fields of a normalized class;
non-string values for these fields are not exercised by the claims and are
collapsed to ""). -/
def RawVal.asStr : RawVal → String
  | .str s => s
  | _ => ""

/-- A normalized class record, the result of `norm_class` (lines 25-34). -/
structure NormClass : Type where
  id : String
  name : String
  namespc : String
  project : String
  service : String
  filePath : String
  metrics : RawObj

/-- The source's `norm_class` (lines 25-34). -/
def norm_class (c : RawObj) : NormClass where
  id := (pyGet c ["id", "Id"] (RawVal.str "")).asStr
  name := (pyGet c ["name", "Name"] (RawVal.str "")).asStr
  namespc := (pyGet c ["namespace", "Namespace"] (RawVal.str "")).asStr
  project := (pyGet c ["project", "Project"] (RawVal.str "")).asStr
  service := (pyGet c ["service", "Service"] (RawVal.str "Unknown")).asStr
  filePath := (pyGet c ["filePath", "FilePath"] (RawVal.str "")).asStr
  metrics := get_metrics_dict c

/-- The source's `float(mx.get(m, 0.0))` (lines 137, 152): a missing metric
key is scored as 0.0.  (A present non-numeric value would raise in Python;
the claims only exercise numeric or absent values, modelled as 0 here.) -/
def metricValue (mx : RawObj) (m : String) : ℚ :=
  match lookup mx m with
  | some (RawVal.num q) => q
  | some _ => 0
  | none => 0

/-- The nine base metrics (line 128). -/
def baseMetrics : List String :=
  ["LOC", "NOM", "NOF", "WMC", "RFC", "CBO", "Cyclomatic",
   "LayerViolations", "CycleInvolvement"]

/-- The three derived metrics (line 129). -/
def derivedMetrics : List String := ["FanIn", "FanOut", "Instability"]

/-! ## Robust normalizer (real-valued, lines 43-53) -/

/-- The source's `sigmoid` (lines 43-48): the logistic curve, saturated to
exactly 0 below -30 and exactly 1 above +30. -/
noncomputable def sigmoid (x : ℝ) : ℝ :=
  if x < -30 then 0
  else if x > 30 then 1
  else 1 / (1 + Real.exp (-x))

/-- The source's `robust_risk` (lines 50-53): robust z-score against
(median, MAD) squashed through the logistic. -/
noncomputable def robust_risk (x med mad_val : ℝ) (alpha : ℝ := 1) : ℝ :=
  sigmoid (alpha * ((x - med) / (1.4826 * mad_val + 1e-9)))

/-! ## Generic numeric helpers (floats modelled as an ordered field) -/

/-- The source's `avg` (lines 55-56). -/
def avg {K : Type} [LinearOrderedField K] (xs : List K) : K :=
  if xs.isEmpty then 0 else xs.sum / (xs.length : K)

/-- Python's `statistics.median`: middle of the sorted list, or the mean of
the two middles for even length.  (Python raises on an empty list; the
pipeline only calls it on nonempty lists, the empty case is mapped to 0.) -/
def pymedian {K : Type} [LinearOrderedField K] (l : List K) : K :=
  let s := List.insertionSort (· ≤ ·) l
  let n := l.length
  if n = 0 then 0
  else if n % 2 = 1 then s.getD (n / 2) 0
  else (s.getD (n / 2 - 1) 0 + s.getD (n / 2) 0) / 2

/-- The source's `mad` (lines 37-41): median absolute deviation. -/
def mad {K : Type} [LinearOrderedField K] (values : List K) : K :=
  if values.isEmpty then 0
  else pymedian (values.map (fun v => |v - pymedian values|))

/-- Python's builtin `round`: round half to even. -/
def pyRound {K : Type} [LinearOrderedField K] [FloorRing K] (q : K) : ℤ :=
  if q - (⌊q⌋ : K) < 1 / 2 then ⌊q⌋
  else if (1 : K) / 2 < q - (⌊q⌋ : K) then ⌊q⌋ + 1
  else if Even ⌊q⌋ then ⌊q⌋ else ⌊q⌋ + 1

/-- The source's `percentile` closure (lines 198-202), taking the already
sorted list of CQS values: nearest-rank with `round`, index clamped. -/
def percentile {K : Type} [LinearOrderedField K] [FloorRing K]
    (vals : List K) (p : K) : K :=
  if vals.isEmpty then 0
  else
    let k : ℤ := pyRound (((vals.length : K) - 1) * p)
    vals.getD (max 0 (min ((vals.length : ℤ) - 1) k)).toNat 0

/-- The derived Instability metric (lines 143-144 and 155-156):
`fo / denom if denom > 0 else 0.0` with `denom = fi + fo`. -/
def instability {K : Type} [LinearOrderedField K] (fi fo : K) : K :=
  if fi + fo > 0 then fo / (fi + fo) else 0

/-- The composite risk (line 179). -/
def R_class {K : Type} [LinearOrderedField K] (s c k a : K) : K :=
  0.20 * s + 0.25 * c + 0.35 * k + 0.20 * a

/-- The class quality score (line 180). -/
def CQSof {K : Type} [LinearOrderedField K] (r : K) : K :=
  100 * (1 - r)

/-! ## Decision classifier and primary cause (lines 207-233) -/

/-- The triage decision (one of the three strings of the source). -/
inductive Decision : Type where
  | OK
  | WATCH
  | REFACTOR
deriving DecidableEq

/-- One scored class row: the identification fields, the twelve metric
values, and the scoring results (lines 182-195).  The numeric scoring
fields live in the field K (the reals for the actual pipeline). -/
structure ScoredRow (K : Type) : Type where
  Service : String
  Project : String
  Namespc : String
  ClassName : String
  ClassId : String
  FilePath : String
  metsList : List (String × ℚ)
  R_size : K
  R_complexity : K
  R_coupling : K
  R_architecture : K
  CQS : K

/-- The decision rules (lines 214-221), applied in order, first match wins. -/
def decisionFor {K : Type} [LinearOrderedField K]
    (p20 p50 : K) (r : ScoredRow K) : Decision :=
  if r.CQS ≤ p20 ∨ r.R_coupling ≥ 0.75 ∨ r.R_architecture ≥ 0.70 then
    Decision.REFACTOR
  else if r.CQS ≤ p50 ∨ r.R_complexity ≥ 0.70 then
    Decision.WATCH
  else
    Decision.OK

/-- The `causes` list (lines 223-228), in its fixed source order. -/
def causesList {K : Type} (r : ScoredRow K) : List (String × K) :=
  [("size", r.R_size),
   ("complexity", r.R_complexity),
   ("coupling", r.R_coupling),
   ("architecture", r.R_architecture)]

/-- The stable descending sort of `causes.sort(key=lambda x: x[1],
reverse=True)` (line 229): an (original-)earlier element stays before a
later one unless the later one's key is strictly larger. -/
def sortCauses {K : Type} [LinearOrderedField K]
    (l : List (String × K)) : List (String × K) :=
  List.insertionSort (fun a b => b.2 ≤ a.2) l

/-- The primary cause `causes[0][0]` after the sort (line 230). -/
def primaryCauseOf {K : Type} [LinearOrderedField K] (r : ScoredRow K) : String :=
  ((sortCauses (causesList r)).headD ("", 0)).1

/-- Modelled from the spec's wording for the primary cause: the first
category, in the fixed order size, complexity, coupling, architecture,
whose risk equals the maximum of the four.  Used only to be compared with
primaryCauseOf, which is the translation of the code. -/
def specPrimary {K : Type} [LinearOrderedField K] (r : ScoredRow K) : String :=
  if r.R_complexity ≤ r.R_size ∧ r.R_coupling ≤ r.R_size ∧
      r.R_architecture ≤ r.R_size then "size"
  else if r.R_size < r.R_complexity ∧ r.R_coupling ≤ r.R_complexity ∧
      r.R_architecture ≤ r.R_complexity then "complexity"
  else if r.R_size < r.R_coupling ∧ r.R_complexity < r.R_coupling ∧
      r.R_architecture ≤ r.R_coupling then "coupling"
  else "architecture"

/-- The `action_map` lookup `action_map.get(primary, "")` (lines 207-212,
233). -/
def actionMap (cause : String) : String :=
  if cause = "size" then
    "Split large classes, extract cohesive responsibilities, reduce method/field count."
  else if cause = "complexity" then
    "Decompose complex methods, reduce branching, introduce strategy/polymorphism where suitable."
  else if cause = "coupling" then
    "Reduce dependencies via DI + interfaces, facades, avoid reaching into many modules; extract smaller components."
  else if cause = "architecture" then
    "Fix layer violations (move code to correct layer), break cycles via interfaces/events, enforce boundaries."
  else ""

/-- A row after the decision pass (lines 231-233). -/
structure DecidedRow (K : Type) : Type where
  row : ScoredRow K
  decision : Decision
  primaryCause : String
  recommendedAction : String

/-! ## Number formatting and string sorting (lines 244-249, 258-265) -/

/-- The ASCII digit character for a digit value. -/
def digitChar (n : ℕ) : Char := Char.ofNat (48 + n)

/-- Decimal rendering of a natural number up to 999 (enough for a CQS
integer part, which lies in [0, 100]). -/
def smallNatStr (n : ℕ) : String :=
  if n < 10 then String.mk [digitChar n]
  else if n < 100 then String.mk [digitChar (n / 10), digitChar (n % 10)]
  else String.mk [digitChar (n / 100), digitChar (n / 10 % 10), digitChar (n % 10)]

/-- The two-decimal formatting `f"{v:.2f}"` applied to the numeric columns
before any table is written (lines 244-249), for nonnegative values (a CQS
is in [0, 100]). -/
def fmt2 {K : Type} [LinearOrderedField K] [FloorRing K] (q : K) : String :=
  let cents : ℕ := (pyRound (100 * q)).toNat
  smallNatStr (cents / 100) ++ "." ++
    (if cents % 100 < 10 then "0" ++ smallNatStr (cents % 100)
     else smallNatStr (cents % 100))

/-- Python's code-point-lexicographic ordering of strings, on the character
lists. -/
def strLtb : List Char → List Char → Bool
  | [], [] => false
  | [], _ :: _ => true
  | _ :: _, [] => false
  | a :: as, b :: bs =>
    if a.toNat < b.toNat then true
    else if b.toNat < a.toNat then false
    else strLtb as bs

/-- Python string comparison `s < t`. -/
def pyStrLt (s t : String) : Bool := strLtb s.data t.data

/-- The refactor-candidates table (lines 258-260): keep the REFACTOR rows,
then `ref_rows.sort(key=lambda x: x["CQS"])`.  At this point in the source
the CQS column has already been replaced by its two-decimal string
rendering (lines 244-249), so the sort key is that string, compared as a
string. -/
def refactorCandidates {K : Type} [LinearOrderedField K] [FloorRing K]
    (rows : List (DecidedRow K)) : List (DecidedRow K) :=
  List.insertionSort
    (fun a b => pyStrLt (fmt2 b.row.CQS) (fmt2 a.row.CQS) = false)
    (rows.filter (fun r => r.decision == Decision.REFACTOR))

/-! ## Service rollup (lines 268-295) -/

/-- One row of the per-service decision summary. -/
structure SummaryRow : Type where
  Service : String
  TotalClasses : ℕ
  okCount : ℕ
  watchCount : ℕ
  refactorCount : ℕ
  okRatio : ℚ
  refRatio : ℚ

/-- The service rollup (lines 268-295): group decisions by service, order
the groups by service label lowered (Python `sorted(..., key=lower)`),
count and take ratios. -/
def summaryOf {K : Type} (rows : List (DecidedRow K)) : List SummaryRow :=
  let svcs := (rows.map (fun r => r.row.Service)).dedup
  let sorted := List.insertionSort
    (fun a b => pyStrLt b.toLower a.toLower = false) svcs
  sorted.map (fun svc =>
    let decs := (rows.filter (fun r => r.row.Service == svc)).map
      (fun r => r.decision)
    let total := decs.length
    let ok := decs.countP (fun d => d == Decision.OK)
    let watch := decs.countP (fun d => d == Decision.WATCH)
    let ref := decs.countP (fun d => d == Decision.REFACTOR)
    { Service := svc
      TotalClasses := total
      okCount := ok
      watchCount := watch
      refactorCount := ref
      okRatio := if total = 0 then 0 else (ok : ℚ) / (total : ℚ)
      refRatio := if total = 0 then 0 else (ref : ℚ) / (total : ℚ) })

/-! ## Pipeline assembly (main, lines 109-301) -/

/-- FanIn of a class (lines 115-126): number of dependency rows targeting
its id, rows with an empty (falsy) source or target skipped. -/
def faninOf (deps : List (String × String)) (cid : String) : ℕ :=
  (deps.filter (fun e => !(e.1 == "") && !(e.2 == ""))).countP
    (fun e => e.2 == cid)

/-- FanOut of a class (lines 115-126): number of dependency rows sourced
from its id, rows with an empty (falsy) source or target skipped. -/
def fanoutOf (deps : List (String × String)) (cid : String) : ℕ :=
  (deps.filter (fun e => !(e.1 == "") && !(e.2 == ""))).countP
    (fun e => e.1 == cid)

/-- The full metric vector of one class (lines 136-144 and 152-156): the
nine base metrics read from the metrics mapping with default 0.0, plus
FanIn, FanOut and Instability. -/
def metsOf (fi fo : ℕ) (c : NormClass) (m : String) : ℚ :=
  if m = "FanIn" then (fi : ℚ)
  else if m = "FanOut" then (fo : ℚ)
  else if m = "Instability" then instability (fi : ℚ) (fo : ℚ)
  else metricValue c.metrics m

/-- The per-metric population statistics (line 146): median and MAD of the
metric's values over all classes. -/
def statsOf (classes : List NormClass) (deps : List (String × String))
    (m : String) : ℚ × ℚ :=
  let vals := classes.map (fun c => metsOf (faninOf deps c.id) (fanoutOf deps c.id) c m)
  (pymedian vals, mad vals)

/-- Scoring of one class (lines 148-195): per-metric robust risks, category
averages, composite risk and CQS. -/
noncomputable def scoreClass (stats : String → ℚ × ℚ)
    (deps : List (String × String)) (c : NormClass) : ScoredRow ℝ :=
  let fi := faninOf deps c.id
  let fo := fanoutOf deps c.id
  let rr : String → ℝ := fun m =>
    robust_risk ((metsOf fi fo c m : ℚ) : ℝ) (((stats m).1 : ℚ) : ℝ) (((stats m).2 : ℚ) : ℝ)
  let Rs : ℝ := avg [rr "LOC", rr "NOM", rr "NOF"]
  let Rcx : ℝ := avg [rr "WMC", rr "RFC", rr "Cyclomatic"]
  let Rcp : ℝ := avg [rr "CBO", rr "FanOut", rr "Instability"]
  let Ra : ℝ := avg [rr "LayerViolations", rr "CycleInvolvement"]
  { Service := c.service
    Project := c.project
    Namespc := c.namespc
    ClassName := c.name
    ClassId := c.id
    FilePath := c.filePath
    metsList := (baseMetrics ++ derivedMetrics).map (fun m => (m, metsOf fi fo c m))
    R_size := Rs
    R_complexity := Rcx
    R_coupling := Rcp
    R_architecture := Ra
    CQS := CQSof (R_class Rs Rcx Rcp Ra) }

/-- The three output tables of one run (lines 236-295): the detailed
per-class table, the refactor-candidates table, and the per-service
summary. -/
structure Outputs : Type where
  detailed : List (DecidedRow ℝ)
  refactor : List (DecidedRow ℝ)
  summary : List SummaryRow

/-- The scoring phase after the population check (lines 115-295): compute
fan counts and statistics, score every class, take the CQS percentiles,
decide and attribute every row, and build the three tables. -/
noncomputable def scoreAll (classes : List NormClass)
    (deps : List (String × String)) : Outputs :=
  let rows := classes.map (scoreClass (statsOf classes deps) deps)
  let cqs_vals := List.insertionSort (· ≤ ·) (rows.map (fun r => r.CQS))
  let p20 := percentile cqs_vals 0.20
  let p50 := percentile cqs_vals 0.50
  let decided : List (DecidedRow ℝ) := rows.map (fun r =>
    { row := r
      decision := decisionFor p20 p50 r
      primaryCause := primaryCauseOf r
      recommendedAction := actionMap (primaryCauseOf r) })
  { detailed := decided
    refactor := refactorCandidates decided
    summary := summaryOf decided }

/-- The run on an in-memory snapshot (lines 109-301): normalize the raw
class records, abort with the source's diagnostic if the collection is
empty (line 112-113, before any scoring), otherwise produce the complete
set of output tables. -/
noncomputable def runPipeline (rawClasses : List RawObj)
    (deps : List (String × String)) : Except String Outputs :=
  let classes := rawClasses.map norm_class
  if classes.isEmpty then Except.error "No classes found in raw_metrics.json"
  else Except.ok (scoreAll classes deps)

/-- The ascending sorted list of all CQS values (line 197). -/
def cqsValsOf {K : Type} [LinearOrderedField K]
    (rows : List (ScoredRow K)) : List K :=
  List.insertionSort (· ≤ ·) (rows.map (fun r => r.CQS))

/-- The population p20 threshold `percentile(0.20)` (line 204). -/
def p20of {K : Type} [LinearOrderedField K] [FloorRing K]
    (rows : List (ScoredRow K)) : K :=
  percentile (cqsValsOf rows) 0.20

/-- The population p50 threshold `percentile(0.50)` (line 205). -/
def p50of {K : Type} [LinearOrderedField K] [FloorRing K]
    (rows : List (ScoredRow K)) : K :=
  percentile (cqsValsOf rows) 0.50

/-- A concrete scored row used by witnesses: CQS 50, all category risks
one half. -/
def sampleRow : ScoredRow ℚ where
  Service := "S"
  Project := "P"
  Namespc := "N"
  ClassName := "C"
  ClassId := "c1"
  FilePath := "f"
  metsList := []
  R_size := 1 / 2
  R_complexity := 1 / 2
  R_coupling := 1 / 2
  R_architecture := 1 / 2
  CQS := 50

/-- A concrete decided REFACTOR row with CQS 9, for the candidate-table
ordering counterexample. -/
def demoRow9 : DecidedRow ℚ where
  row := { sampleRow with ClassId := "c9", CQS := 9 }
  decision := Decision.REFACTOR
  primaryCause := "size"
  recommendedAction := actionMap "size"

/-- A concrete decided REFACTOR row with CQS 12, for the candidate-table
ordering counterexample. -/
def demoRow12 : DecidedRow ℚ where
  row := { sampleRow with ClassId := "c12", CQS := 12 }
  decision := Decision.REFACTOR
  primaryCause := "size"
  recommendedAction := actionMap "size"

/-! ## Helper lemmas -/

theorem sigmoid_nonneg (x : ℝ) : 0 ≤ sigmoid x := by
  unfold sigmoid
  split_ifs with h1 h2
  · exact le_refl 0
  · exact zero_le_one
  · positivity

theorem sigmoid_le_one (x : ℝ) : sigmoid x ≤ 1 := by
  unfold sigmoid
  split_ifs with h1 h2
  · exact zero_le_one
  · exact le_refl 1
  · rw [div_le_one (by positivity)]
    have := Real.exp_pos (-x)
    linarith

theorem sigmoid_monotone {x y : ℝ} (hxy : x ≤ y) : sigmoid x ≤ sigmoid y := by
  unfold sigmoid
  split_ifs with h1 h2 h3 h4 h5 h6 h7
  · exact le_refl 0
  · exact zero_le_one
  · positivity
  · linarith
  · exact le_refl 1
  · linarith
  · linarith
  · rw [div_le_one (by positivity)]
    have := Real.exp_pos (-x)
    linarith
  · have hexp : Real.exp (-y) ≤ Real.exp (-x) := Real.exp_le_exp.2 (by linarith)
    have hpos : (0 : ℝ) < 1 + Real.exp (-y) := by positivity
    exact one_div_le_one_div_of_le hpos (by linarith)

theorem sigmoid_zero : sigmoid 0 = 1 / 2 := by
  unfold sigmoid
  rw [if_neg (by norm_num), if_neg (by norm_num), neg_zero, Real.exp_zero]
  norm_num

/-! ## Claim theorems -/

/-- C3: for every value v, median m and mad with mad at least 0, the robust
risk lies in the interval from 0 to 1, and the robust risk of the median
itself is exactly one half. -/
theorem robust_risk_bounded_and_centered (v m mad_val : ℝ) (hmad : 0 ≤ mad_val) :
    (0 ≤ robust_risk v m mad_val ∧ robust_risk v m mad_val ≤ 1) ∧
    robust_risk m m mad_val = 1 / 2 := by
  refine ⟨⟨sigmoid_nonneg _, sigmoid_le_one _⟩, ?_⟩
  unfold robust_risk
  rw [sub_self, zero_div, mul_zero, sigmoid_zero]

/-- Witness for C3 at v = 3, m = 1, mad = 0. -/
theorem robust_risk_bounded_and_centered_witness :
    (0 : ℝ) ≤ 0 ∧
    ((0 ≤ robust_risk 3 1 0 ∧ robust_risk 3 1 0 ≤ 1) ∧
      robust_risk 1 1 0 = 1 / 2) :=
  ⟨le_refl 0, robust_risk_bounded_and_centered 3 1 0 (le_refl 0)⟩

/-- C4: for a fixed median and a positive mad, the robust risk (with the
default alpha of 1) is monotonically non-decreasing in the value, across
the logistic's saturation branches included. -/
theorem robust_risk_monotone (m mad_val v1 v2 : ℝ)
    (hmad : 0 < mad_val) (hv : v1 ≤ v2) :
    robust_risk v1 m mad_val ≤ robust_risk v2 m mad_val := by
  unfold robust_risk
  apply sigmoid_monotone
  have hd : (0 : ℝ) < 1.4826 * mad_val + 1e-9 := by nlinarith
  rw [one_mul, one_mul]
  exact (div_le_div_right hd).2 (sub_le_sub_right hv m)

/-- Witness for C4 at m = 0, mad = 1, v1 = 0, v2 = 1. -/
theorem robust_risk_monotone_witness :
    (0 : ℝ) < 1 ∧ (0 : ℝ) ≤ 1 ∧ robust_risk 0 0 1 ≤ robust_risk 1 0 1 :=
  ⟨one_pos, zero_le_one, robust_risk_monotone 0 1 0 1 one_pos zero_le_one⟩

/-- C2: the composite risk is the fixed weighted sum of the four category
risks, the weights sum to exactly 1 (so the all-ones input scores 1), the
composite risk stays in the unit interval when the inputs do, the CQS is
100 times one minus the composite risk hence in the interval from 0 to
100, and the CQS is strictly decreasing in the composite risk. -/
theorem composite_risk_and_cqs {K : Type} [LinearOrderedField K]
    (s c k a : K) (hs0 : 0 ≤ s) (hs1 : s ≤ 1) (hc0 : 0 ≤ c) (hc1 : c ≤ 1)
    (hk0 : 0 ≤ k) (hk1 : k ≤ 1) (ha0 : 0 ≤ a) (ha1 : a ≤ 1) :
    R_class s c k a = 0.20 * s + 0.25 * c + 0.35 * k + 0.20 * a ∧
    R_class (1 : K) 1 1 1 = 1 ∧
    (0 ≤ R_class s c k a ∧ R_class s c k a ≤ 1) ∧
    CQSof (R_class s c k a) = 100 * (1 - R_class s c k a) ∧
    (0 ≤ CQSof (R_class s c k a) ∧ CQSof (R_class s c k a) ≤ 100) ∧
    (∀ r1 r2 : K, r1 < r2 → CQSof r2 < CQSof r1) := by
  have hb0 : 0 ≤ R_class s c k a := by unfold R_class; norm_num; linarith
  have hb1 : R_class s c k a ≤ 1 := by unfold R_class; norm_num; linarith
  refine ⟨rfl, by norm_num [R_class], ⟨hb0, hb1⟩, rfl, ⟨?_, ?_⟩, ?_⟩
  · unfold CQSof; linarith
  · unfold CQSof; linarith
  · intro r1 r2 h12; unfold CQSof; linarith

/-- Witness for C2 at category risks (1, 0, 0, 0) over the rationals. -/
theorem composite_risk_and_cqs_witness :
    R_class (1 : ℚ) 0 0 0 = 0.20 * 1 + 0.25 * 0 + 0.35 * 0 + 0.20 * 0 ∧
    R_class (1 : ℚ) 1 1 1 = 1 ∧
    (0 ≤ R_class (1 : ℚ) 0 0 0 ∧ R_class (1 : ℚ) 0 0 0 ≤ 1) ∧
    CQSof (R_class (1 : ℚ) 0 0 0) = 100 * (1 - R_class (1 : ℚ) 0 0 0) ∧
    (0 ≤ CQSof (R_class (1 : ℚ) 0 0 0) ∧ CQSof (R_class (1 : ℚ) 0 0 0) ≤ 100) ∧
    (∀ r1 r2 : ℚ, r1 < r2 → CQSof r2 < CQSof r1) :=
  composite_risk_and_cqs 1 0 0 0 zero_le_one le_rfl le_rfl zero_le_one
    le_rfl zero_le_one le_rfl zero_le_one

/-- C9: the Instability metric is the guarded ratio: it equals
FanOut / (FanIn + FanOut) whenever the denominator is positive (and that
denominator is then provably nonzero), and it equals exactly 0 when both
counts are zero; the function is total, so the computation never fails. -/
theorem instability_guarded {K : Type} [LinearOrderedField K]
    (fi fo : K) (hfi : 0 ≤ fi) (hfo : 0 ≤ fo) :
    (0 < fi + fo → instability fi fo = fo / (fi + fo) ∧ fi + fo ≠ 0) ∧
    (fi = 0 → fo = 0 → instability fi fo = 0) := by
  constructor
  · intro h
    exact ⟨by rw [instability, if_pos h], ne_of_gt h⟩
  · intro h1 h2
    subst h1; subst h2
    rw [instability, if_neg (by norm_num)]

/-- Witness for C9 at (FanIn, FanOut) = (1, 1) and (0, 0) over the
rationals. -/
theorem instability_guarded_witness :
    (instability (1 : ℚ) 1 = 1 / (1 + 1) ∧ (1 : ℚ) + 1 ≠ 0) ∧
    instability (0 : ℚ) 0 = 0 :=
  ⟨(instability_guarded 1 1 zero_le_one zero_le_one).1 (by norm_num),
   (instability_guarded 0 0 le_rfl le_rfl).2 rfl rfl⟩

/-- C10: when the metrics field of a raw class record is absent, or present
under "metrics" or "Metrics" but not a mapping, normalization substitutes
the empty mapping, so every one of the nine base metrics of that class is
scored as 0. -/
theorem missing_metrics_scored_zero (c : RawObj)
    (h : (lookup c "metrics" = none ∧ lookup c "Metrics" = none) ∨
      (pyGet c ["metrics", "Metrics"] (RawVal.dict [])).isDict = false) :
    get_metrics_dict c = [] ∧
    ∀ m ∈ baseMetrics, metricValue (get_metrics_dict c) m = 0 := by
  have hempty : get_metrics_dict c = [] := by
    rcases h with ⟨h1, h2⟩ | h
    · simp [get_metrics_dict, pyGet, h1, h2]
    · unfold get_metrics_dict
      cases hv : pyGet c ["metrics", "Metrics"] (RawVal.dict []) <;>
        simp_all [RawVal.isDict]
  refine ⟨hempty, fun m _ => ?_⟩
  rw [hempty]
  rfl

/-- Witness for C10 at a record whose metrics field is a number. -/
theorem missing_metrics_scored_zero_witness :
    get_metrics_dict [("metrics", RawVal.num 3)] = [] ∧
    ∀ m ∈ baseMetrics,
      metricValue (get_metrics_dict [("metrics", RawVal.num 3)]) m = 0 :=
  missing_metrics_scored_zero [("metrics", RawVal.num 3)] (Or.inr rfl)

/-- C8: an empty normalized class collection makes the run fail with the
source's diagnostic, before any scoring and with no output table built; a
nonempty collection always yields the complete set of three output
tables. -/
theorem empty_population_aborts (raw : List RawObj)
    (deps : List (String × String)) :
    (raw.map norm_class = [] →
      runPipeline raw deps = Except.error "No classes found in raw_metrics.json") ∧
    (raw.map norm_class ≠ [] → (runPipeline raw deps).isOk = true) := by
  constructor
  · intro h
    simp only [runPipeline, h]
    rfl
  · intro h
    simp only [runPipeline]
    rw [if_neg (by simpa [List.isEmpty_iff] using h)]
    rfl

/-- Witness for C8: the empty input aborts, a one-class input produces the
tables. -/
theorem empty_population_aborts_witness :
    runPipeline [] [] = Except.error "No classes found in raw_metrics.json" ∧
    (runPipeline [[("id", RawVal.str "A")]] []).isOk = true :=
  ⟨(empty_population_aborts [] []).1 rfl,
   (empty_population_aborts [[("id", RawVal.str "A")]] []).2 (by simp)⟩

/-- Helper: full case characterization of the decision rules. -/
theorem decisionFor_iff {K : Type} [LinearOrderedField K]
    (p20 p50 : K) (r : ScoredRow K) :
    (decisionFor p20 p50 r = Decision.REFACTOR ↔
      (r.CQS ≤ p20 ∨ r.R_coupling ≥ 0.75 ∨ r.R_architecture ≥ 0.70)) ∧
    (decisionFor p20 p50 r = Decision.WATCH ↔
      (¬(r.CQS ≤ p20 ∨ r.R_coupling ≥ 0.75 ∨ r.R_architecture ≥ 0.70) ∧
        (r.CQS ≤ p50 ∨ r.R_complexity ≥ 0.70))) ∧
    (decisionFor p20 p50 r = Decision.OK ↔
      (¬(r.CQS ≤ p20 ∨ r.R_coupling ≥ 0.75 ∨ r.R_architecture ≥ 0.70) ∧
        ¬(r.CQS ≤ p50 ∨ r.R_complexity ≥ 0.70))) := by
  unfold decisionFor
  split_ifs with h1 h2 <;> simp_all

/-- C1: the triage decision applies the rules in order with first match
winning — REFACTOR exactly when CQS is at most p20 or the coupling risk is
at least 0.75 or the architecture risk is at least 0.70; otherwise WATCH
exactly when CQS is at most p50 or the complexity risk is at least 0.70;
otherwise OK — and every class receives exactly one of the three
decisions. -/
theorem decision_rules_first_match {K : Type} [LinearOrderedField K]
    (p20 p50 : K) (r : ScoredRow K) :
    (decisionFor p20 p50 r = Decision.REFACTOR ↔
      (r.CQS ≤ p20 ∨ r.R_coupling ≥ 0.75 ∨ r.R_architecture ≥ 0.70)) ∧
    (decisionFor p20 p50 r = Decision.WATCH ↔
      (¬(r.CQS ≤ p20 ∨ r.R_coupling ≥ 0.75 ∨ r.R_architecture ≥ 0.70) ∧
        (r.CQS ≤ p50 ∨ r.R_complexity ≥ 0.70))) ∧
    (decisionFor p20 p50 r = Decision.OK ↔
      (¬(r.CQS ≤ p20 ∨ r.R_coupling ≥ 0.75 ∨ r.R_architecture ≥ 0.70) ∧
        ¬(r.CQS ≤ p50 ∨ r.R_complexity ≥ 0.70))) ∧
    (decisionFor p20 p50 r = Decision.OK ∨
      decisionFor p20 p50 r = Decision.WATCH ∨
      decisionFor p20 p50 r = Decision.REFACTOR) := by
  refine ⟨(decisionFor_iff p20 p50 r).1, (decisionFor_iff p20 p50 r).2.1,
    (decisionFor_iff p20 p50 r).2.2, ?_⟩
  cases decisionFor p20 p50 r
  · exact Or.inl rfl
  · exact Or.inr (Or.inl rfl)
  · exact Or.inr (Or.inr rfl)

/-- Helper: pyRound lands on the floor or the floor plus one. -/
theorem pyRound_bounds {K : Type} [LinearOrderedField K] [FloorRing K]
    (q : K) : ⌊q⌋ ≤ pyRound q ∧ pyRound q ≤ ⌊q⌋ + 1 := by
  unfold pyRound
  split_ifs <;> omega

/-- Helper: pyRound (round half to even) is monotone. -/
theorem pyRound_mono {K : Type} [LinearOrderedField K] [FloorRing K]
    {x y : K} (h : x ≤ y) : pyRound x ≤ pyRound y := by
  have hf : ⌊x⌋ ≤ ⌊y⌋ := Int.floor_le_floor h
  rcases eq_or_lt_of_le hf with heq | hlt
  · have hxy : x - (⌊x⌋ : K) ≤ y - (⌊x⌋ : K) := sub_le_sub_right h _
    unfold pyRound
    rw [← heq]
    split_ifs <;> first | omega | (exfalso; linarith)
  · have hx := (pyRound_bounds x).2
    have hy := (pyRound_bounds y).1
    omega

/-- Helper: on a sorted value list, the nearest-rank percentile is monotone
in the requested rank. -/
theorem percentile_mono_of_sorted {K : Type} [LinearOrderedField K]
    [FloorRing K] {vals : List K} (hs : List.Sorted (· ≤ ·) vals)
    {p q : K} (hpq : p ≤ q) : percentile vals p ≤ percentile vals q := by
  cases vals with
  | nil => simp [percentile]
  | cons hd tl =>
    unfold percentile
    rw [if_neg (by simp), if_neg (by simp)]
    have hn : 1 ≤ (hd :: tl).length := Nat.succ_le_succ (Nat.zero_le _)
    have hnk : (0 : K) ≤ ((hd :: tl).length : K) - 1 := by
      have h1 : (1 : K) ≤ ((hd :: tl).length : K) := by exact_mod_cast hn
      linarith
    have hkk : pyRound ((((hd :: tl).length : K) - 1) * p) ≤
        pyRound ((((hd :: tl).length : K) - 1) * q) :=
      pyRound_mono (mul_le_mul_of_nonneg_left hpq hnk)
    set kp := pyRound ((((hd :: tl).length : K) - 1) * p) with hkp
    set kq := pyRound ((((hd :: tl).length : K) - 1) * q) with hkq
    set c : ℤ := ((hd :: tl).length : ℤ) - 1 with hc
    have hc0 : (0 : ℤ) ≤ c := by
      have h1 : (1 : ℤ) ≤ ((hd :: tl).length : ℤ) := by exact_mod_cast hn
      omega
    have hij : (max 0 (min c kp)).toNat ≤ (max 0 (min c kq)).toNat :=
      Int.toNat_le_toNat (max_le_max le_rfl (min_le_min le_rfl hkk))
    have hbi : max 0 (min c kp) ≤ c := max_le hc0 (min_le_left _ _)
    have hbj : max 0 (min c kq) ≤ c := max_le hc0 (min_le_left _ _)
    have hlti : (max 0 (min c kp)).toNat < (hd :: tl).length := by omega
    have hltj : (max 0 (min c kq)).toNat < (hd :: tl).length := by omega
    rw [List.getD_eq_getElem _ _ hlti, List.getD_eq_getElem _ _ hltj]
    rcases eq_or_lt_of_le hij with he | hl
    · simp only [he]
      exact le_rfl
    · have hrel := List.pairwise_iff_get.1 hs
        ⟨(max 0 (min c kp)).toNat, hlti⟩ ⟨(max 0 (min c kq)).toNat, hltj⟩
        (Fin.mk_lt_mk.2 hl)
      simpa using hrel

/-- C5: the p20 threshold never exceeds the p50 threshold, so every class
decided REFACTOR either has CQS at most p50 or triggers the coupling or
architecture override. -/
theorem refactor_implies_p50 {K : Type} [LinearOrderedField K] [FloorRing K]
    (rows : List (ScoredRow K)) (r : ScoredRow K)
    (h : decisionFor (p20of rows) (p50of rows) r = Decision.REFACTOR) :
    p20of rows ≤ p50of rows ∧
    (r.CQS ≤ p50of rows ∨ r.R_coupling ≥ 0.75 ∨ r.R_architecture ≥ 0.70) := by
  have hps : p20of rows ≤ p50of rows :=
    percentile_mono_of_sorted (List.sorted_insertionSort _ _) (by norm_num)
  refine ⟨hps, ?_⟩
  rcases (decisionFor_iff (p20of rows) (p50of rows) r).1.1 h with hc | hother
  · exact Or.inl (le_trans hc hps)
  · exact Or.inr hother

/-- Helper: the percentile of a one-element list is its element. -/
theorem percentile_singleton {K : Type} [LinearOrderedField K] [FloorRing K]
    (x p : K) : percentile [x] p = x := by
  unfold percentile
  rw [if_neg (by simp)]
  have h0 : ((([x] : List K).length : K) - 1) * p = 0 := by norm_num
  rw [h0]
  have hr : pyRound (0 : K) = 0 := by
    unfold pyRound
    rw [Int.floor_zero]
    rw [if_pos (by norm_num)]
  rw [hr]
  norm_num

/-- Helper: both thresholds of a one-row population equal the row's CQS. -/
theorem thresholds_singleton : p20of [sampleRow] = 50 ∧ p50of [sampleRow] = 50 := by
  have hc : cqsValsOf [sampleRow] = [50] := by
    simp [cqsValsOf, List.insertionSort, List.orderedInsert, sampleRow]
  constructor <;> simp [p20of, p50of, hc, percentile_singleton]

/-- Witness for C5 on the one-row population of sampleRow. -/
theorem refactor_implies_p50_witness :
    p20of [sampleRow] ≤ p50of [sampleRow] ∧
    (sampleRow.CQS ≤ p50of [sampleRow] ∨ sampleRow.R_coupling ≥ 0.75 ∨
      sampleRow.R_architecture ≥ 0.70) :=
  refactor_implies_p50 [sampleRow] sampleRow (by
    rw [decisionFor, thresholds_singleton.1, thresholds_singleton.2]
    simp [sampleRow])


/-- C6: the primary cause is always one of the four fixed category names
and is the category with the numerically highest risk, ties broken by
first occurrence in the order size, complexity, coupling, architecture
(the stable descending sort of the code). -/
theorem primary_cause_argmax {K : Type} [LinearOrderedField K]
    (r : ScoredRow K) :
    primaryCauseOf r = specPrimary r ∧
    (primaryCauseOf r = "size" ∨ primaryCauseOf r = "complexity" ∨
      primaryCauseOf r = "coupling" ∨ primaryCauseOf r = "architecture") := by
  have heq : primaryCauseOf r = specPrimary r := by
    by_cases q1 : r.R_architecture ≤ r.R_coupling
    · by_cases q2 : r.R_coupling ≤ r.R_complexity
      · by_cases q6 : r.R_complexity ≤ r.R_size
        · have hks : r.R_coupling ≤ r.R_size := le_trans q2 q6
          have has : r.R_architecture ≤ r.R_size := le_trans q1 hks
          simp [primaryCauseOf, sortCauses, causesList, List.insertionSort,
            List.orderedInsert, specPrimary, q1, q2, q6, hks, has]
        · have hsc : r.R_size < r.R_complexity := not_le.mp q6
          have hac : r.R_architecture ≤ r.R_complexity := le_trans q1 q2
          simp [primaryCauseOf, sortCauses, causesList, List.insertionSort,
            List.orderedInsert, specPrimary, q1, q2, q6, hsc, hac]
      · by_cases q7 : r.R_coupling ≤ r.R_size
        · have hcs : r.R_complexity ≤ r.R_size := le_trans (not_le.mp q2).le q7
          have has : r.R_architecture ≤ r.R_size := le_trans q1 q7
          simp [primaryCauseOf, sortCauses, causesList, List.insertionSort,
            List.orderedInsert, specPrimary, q1, q2, q7, hcs, has]
        · have hsk : r.R_size < r.R_coupling := not_le.mp q7
          have hck : r.R_complexity < r.R_coupling := not_le.mp q2
          simp [primaryCauseOf, sortCauses, causesList, List.insertionSort,
            List.orderedInsert, specPrimary, q1, q2, q7, hsk, hck]
    · by_cases q4 : r.R_architecture ≤ r.R_complexity
      · by_cases q6 : r.R_complexity ≤ r.R_size
        · have hks : r.R_coupling ≤ r.R_size :=
            le_trans (not_le.mp q1).le (le_trans q4 q6)
          have has : r.R_architecture ≤ r.R_size := le_trans q4 q6
          have hkc : r.R_coupling ≤ r.R_complexity :=
            le_trans (not_le.mp q1).le q4
          simp [primaryCauseOf, sortCauses, causesList, List.insertionSort,
            List.orderedInsert, specPrimary, q1, q4, q6, hks, has, hkc]
        · have hsc : r.R_size < r.R_complexity := not_le.mp q6
          have hkc : r.R_coupling ≤ r.R_complexity :=
            le_trans (not_le.mp q1).le q4
          simp [primaryCauseOf, sortCauses, causesList, List.insertionSort,
            List.orderedInsert, specPrimary, q1, q4, q6, hsc, hkc]
      · by_cases q8 : r.R_architecture ≤ r.R_size
        · have hcs : r.R_complexity ≤ r.R_size := le_trans (not_le.mp q4).le q8
          have hks : r.R_coupling ≤ r.R_size := le_trans (not_le.mp q1).le q8
          simp [primaryCauseOf, sortCauses, causesList, List.insertionSort,
            List.orderedInsert, specPrimary, q1, q4, q8, hcs, hks]
        · simp [primaryCauseOf, sortCauses, causesList, List.insertionSort,
            List.orderedInsert, specPrimary, q1, q4, q8]
  refine ⟨heq, ?_⟩
  rw [heq]
  unfold specPrimary
  split_ifs <;> simp

/-- Helper: pyRound is the identity on integers. -/
theorem pyRound_intCast {K : Type} [LinearOrderedField K] [FloorRing K]
    (n : ℤ) : pyRound ((n : ℤ) : K) = n := by
  unfold pyRound
  rw [Int.floor_intCast]
  rw [if_pos (by norm_num)]

/-- Helper: the two-decimal rendering of 12. -/
theorem fmt2_twelve : fmt2 ((12 : ℚ)) = "12.00" := by
  unfold fmt2
  rw [show ((100 : ℚ) * 12) = (((1200 : ℤ) : ℚ)) by norm_num, pyRound_intCast]
  decide

/-- Helper: the two-decimal rendering of 9. -/
theorem fmt2_nine : fmt2 ((9 : ℚ)) = "9.00" := by
  unfold fmt2
  rw [show ((100 : ℚ) * 9) = (((900 : ℤ) : ℚ)) by norm_num, pyRound_intCast]
  decide

/-- C7 (refutation of the ordering part): the refactor-candidates table is
sorted by the two-decimal string rendering of CQS (the numeric columns are
stringified before the candidate sort), not by the numeric CQS: for two
REFACTOR rows with CQS 9 and 12, the table comes out in the order
12 then 9, although 9 < 12, because the string "12.00" compares below
"9.00". -/
theorem refactor_sort_is_string_sort :
    (refactorCandidates [demoRow9, demoRow12]).map (fun d => d.row.CQS) =
      [12, 9] ∧ (9 : ℚ) < 12 := by
  have hlt : pyStrLt "12.00" "9.00" = true := by decide
  constructor
  · unfold refactorCandidates
    simp [demoRow9, demoRow12, sampleRow, List.insertionSort,
      List.orderedInsert, fmt2_twelve, fmt2_nine, hlt]
  · norm_num
